import Mathlib

/-!
BaseCSVReader (duckdb/execution/operator/persistent/base_csv_reader.hpp).

A shallow embedding of the base CSV reader declared in `base_csv_reader.hpp`.

* `ParserMode`, the data members of `BaseCSVReader`, their default member
  initialisers and the four inline member functions (`GetFileName`,
  `GetNames`, `GetTypes`, `GetLineError`) are translated from the header.
* The header only *declares* `InitializeProjection`, `InitParseChunk`,
  `AddValue` and `AddRow`, and only names the types `LogicalType`,
  `DataChunk`, `BufferedCSVReaderOptions` and `MultiFileReaderData`.  Their
  definitions below are modelled from the specification and say so in their
  doc comments.

Member functions are written in state-passing style: a member function that
returns a value yields the value together with the reader after the call, and
an argument passed by reference is returned with it.  The data members are
public (line 37), so a write to `return_types` is a step of its own.
`idx_t` (an unsigned 64-bit integer) is embedded as `Nat`; no arithmetic on
`idx_t` is performed by the translated bodies.  The handles `context`, `fs`,
`allocator` and `opener` refer to objects outside the reader and are not part
of the embedded state.
-/

set_option linter.unusedVariables false

namespace duckdb

/-! ## Types declared in the header -/

/-- The enum `ParserMode` (line 33):
`enum class ParserMode : uint8_t { PARSING = 0, SNIFFING_DIALECT = 1,
SNIFFING_DATATYPES = 2, PARSING_HEADER = 3 }`.
The enum has the fixed underlying type `uint8_t`, so a value of type
`ParserMode` is any value of `uint8_t`; the four enumerators are four named
values of it. -/
structure ParserMode where
  value : Fin 256
  deriving DecidableEq, Repr

/-- The enumerator `PARSING = 0`. -/
def ParserMode.PARSING : ParserMode :=
  { value := 0 }

/-- Modelled from the spec: `LogicalType` is declared outside the header.  The
spec names raw text (varchar) as the type of accumulated fields and integer,
float, date and boolean as candidate column types. -/
inductive LogicalType where
  | BOOLEAN
  | INTEGER
  | DOUBLE
  | DATE
  | VARCHAR
  deriving DecidableEq, Repr

/-- Modelled from the spec: a column of a batch (`Vector` is declared outside
the header).  A column has a type and one slot of text per row of capacity. -/
structure Vector where
  type : LogicalType
  values : List String
  deriving DecidableEq, Repr

/-- Modelled from the spec: `DataChunk` is declared outside the header.  The
spec describes a batch as "a fixed-capacity batch of columns ... holding up to
a configured number of rows": the columns, the number of rows held and the
row capacity. -/
structure DataChunk where
  data : List Vector
  count : Nat
  capacity : Nat
  deriving DecidableEq, Repr

/-- Modelled from the spec: `BufferedCSVReaderOptions` is declared outside the
header; only its member `file_path` is used by the header (line 71).  The
other fields follow the spec's description of the Configuration: "resolved
file path, delimiter/quote/escape characters (or to be sniffed), declared or
requested column types and names, compression/encoding mode, sample size and
sample count for sniffing, header presence flag", the policy whether extra
columns may be ignored (sections 4.1 and 7) and the configured batch capacity
(section 4.3). -/
structure BufferedCSVReaderOptions where
  file_path : String
  delimiter : Option Char
  quote : Option Char
  escape : Option Char
  sql_types : List LogicalType
  name_list : List String
  compression : String
  sample_chunk_size : Nat
  sample_chunks : Nat
  header : Bool
  ignore_extra_columns : Bool
  batch_capacity : Nat
  deriving DecidableEq, Repr

/-- Modelled from the spec: `MultiFileReaderData` is declared outside the
header.  Of it the spec describes the column projection: "the subset and
order of columns actually requested by the consumer". -/
structure MultiFileReaderData where
  projection : List Nat
  deriving DecidableEq, Repr

/-- Modelled from the spec: the error kinds of section 7.  `SchemaMismatch`
carries the human-readable `error_message`. -/
inductive CSVError where
  | DialectAmbiguous
  | SchemaMismatch (error_message : String)
  | CastFailure
  | MalformedEncoding
  | PrematureEndOfStream
  deriving DecidableEq, Repr

/-! ## The reader -/

/-- The data members of `class BaseCSVReader` (lines 46-67 and 115-117), in
declaration order.  `bytes_per_line_avg` is a `double` in the header; only its
initial value `0` is used here and it is embedded as a rational. -/
structure BaseCSVReader where
  options : BufferedCSVReaderOptions
  return_types : List LogicalType
  names : List String
  reader_data : MultiFileReaderData
  linenr : Nat
  linenr_estimated : Bool
  row_empty : Bool
  sample_chunk_idx : Nat
  jumping_samples : Bool
  end_of_file_reached : Bool
  bom_checked : Bool
  bytes_in_chunk : Nat
  bytes_per_line_avg : ℚ
  parse_chunk : DataChunk
  cached_chunks : List DataChunk
  mode : ParserMode
  error_column_overflow : Bool
  sniffed_column_counts : List Nat
  deriving DecidableEq

/-- A default-constructed `DataChunk`: no columns and no rows. -/
def DataChunk.empty : DataChunk :=
  { data := [], count := 0, capacity := 0 }

/-- Number of columns of a batch. -/
def DataChunk.ColumnCount (c : DataChunk) : Nat :=
  c.data.length

/-- The reader right after construction: every member with a default member
initialiser (lines 51-61 and 115) has that value, the vectors, the queue and
the chunk are default-constructed, `options` is the constructor argument.
`mode` has no initialiser in the header, so its initial value is an
argument. -/
def BaseCSVReader.construct (options : BufferedCSVReaderOptions) (mode : ParserMode) :
    BaseCSVReader :=
  { options := options
    return_types := []
    names := []
    reader_data := { projection := [] }
    linenr := 0
    linenr_estimated := false
    row_empty := false
    sample_chunk_idx := 0
    jumping_samples := false
    end_of_file_reached := false
    bom_checked := false
    bytes_in_chunk := 0
    bytes_per_line_avg := 0
    parse_chunk := DataChunk.empty
    cached_chunks := []
    mode := mode
    error_column_overflow := false
    sniffed_column_counts := [] }

/-! ## Inline member functions (lines 70-81) -/

/-- The member function `GetFileName` (lines 70-72): `return options.file_path;`. -/
def GetFileName (r : BaseCSVReader) : String × BaseCSVReader :=
  (r.options.file_path, r)

/-- The member function `GetNames` (lines 73-75): `return names;`. -/
def GetNames (r : BaseCSVReader) : List String × BaseCSVReader :=
  (r.names, r)

/-- The member function `GetTypes` (lines 76-78): `return return_types;`. -/
def GetTypes (r : BaseCSVReader) : List LogicalType × BaseCSVReader :=
  (r.return_types, r)

/-- The base implementation of the virtual member function `GetLineError`
(lines 79-81): `return line_error;`. -/
def GetLineError (r : BaseCSVReader) (line_error : Nat) (buffer_idx : Nat) :
    Nat × BaseCSVReader :=
  (line_error, r)

/-! ## Member functions declared in the header without a body -/

/-- Modelled from the spec: the body of `InitializeProjection` (line 84,
"Initialize projection indices to select all columns") is not in the header.
Spec, section 6: "selects which discovered columns are materialized,
defaulting to all".  The discovered columns are those of `GetTypes()`. -/
def InitializeProjection (r : BaseCSVReader) : BaseCSVReader :=
  { r with reader_data := { r.reader_data with projection := List.range (GetTypes r).1.length } }

/-- Modelled from the spec: the body of `InitParseChunk` (line 88,
"Initializes the parse_chunk with varchar columns") is not in the header.
Spec, section 4.3: "(re)allocates the accumulation buffer to hold `num_cols`
raw-text columns at the configured batch capacity". -/
def InitParseChunk (r : BaseCSVReader) (num_cols : Nat) : BaseCSVReader :=
  { r with
    parse_chunk :=
      { data := List.replicate num_cols
          { type := LogicalType.VARCHAR, values := List.replicate r.options.batch_capacity "" }
        count := 0
        capacity := r.options.batch_capacity } }

/-- Modelled from the spec: unescaping of a quoted field.  Spec, section 4.1:
"If `had_quotes` and `escape_positions` is non-empty, the field must first be
unescaped according to the escape character before being stored as raw text".
The characters at the escape positions are dropped. -/
def RemoveEscapes (str_val : String) (escape_positions : List Nat) : String :=
  String.mk ((str_val.toList.enum.filter fun p => !escape_positions.contains p.1).map Prod.snd)

/-- Writes `v` into the slot of row `row` in column `col` of a batch; a column
the batch does not have is not written. -/
def DataChunk.SetValue (c : DataChunk) (col row : Nat) (v : String) : DataChunk :=
  match c.data[col]? with
  | some vec => { c with data := c.data.set col { vec with values := vec.values.set row v } }
  | none => c

/-- The text of row `row` of a batch, one field per column. -/
def DataChunk.GetRow (c : DataChunk) (row : Nat) : List String :=
  c.data.map fun vec => vec.values.getD row ""

/-- Adds one row at the end of a batch: field `i` of the row goes to column
`i`, and the batch holds one row more. -/
def DataChunk.AppendRow (c : DataChunk) (row : List String) : DataChunk :=
  { c with
    data := c.data.enum.map fun p =>
      match row[p.1]? with
      | some v => { p.2 with values := p.2.values.set c.count v }
      | none => p.2
    count := c.count + 1 }

/-- Whether a batch "has reached its row capacity": it holds as many rows as
its capacity. -/
def DataChunk.IsFull (c : DataChunk) : Bool :=
  decide (c.count = c.capacity)

/-- Modelled from the spec: the body of `AddValue` (lines 96-98, "Adds a value
to the current row") is not in the header.  Spec, section 4.1: "appends one
field to the current row's slot in the accumulation buffer.  If `had_quotes`
and `escape_positions` is non-empty, the field must first be unescaped ...
If `column_index` would exceed the declared column count, marks
`error_column_overflow` and tracks the field only for error reporting, not
for storage."  Section 3 gives a row "a flag marking whether the row was
entirely empty" and section 4.1 treats "a row with zero non-empty fields" as
`row_empty`, so the flag says whether all fields stored so far are empty.
The result is the reader and the advanced `column` (passed by reference in
the header); the spec names no failure of `AddValue`. -/
def AddValue (r : BaseCSVReader) (str_val : String) (column : Nat)
    (escape_positions : List Nat) (has_quotes : Bool) (buffer_idx : Nat) :
    Except CSVError (BaseCSVReader × Nat) :=
  let text :=
    if has_quotes && !escape_positions.isEmpty then RemoveEscapes str_val escape_positions
    else str_val
  if r.return_types.length ≤ column then
    .ok ({ r with error_column_overflow := true }, column + 1)
  else
    .ok ({ r with
            parse_chunk := r.parse_chunk.SetValue column r.parse_chunk.count text
            row_empty := if column = 0 then text.isEmpty else r.row_empty && text.isEmpty },
         column + 1)

/-- One field as handed to `AddValue`: the text, the escape positions and
whether it was quoted. -/
structure Field where
  str_val : String
  escape_positions : List Nat
  has_quotes : Bool
  deriving DecidableEq, Repr

/-- The fields of one row added in order with `AddValue`, starting at
`column`; each call receives the reader and the column left by the previous
one. -/
def AddValues (r : BaseCSVReader) (column : Nat) (buffer_idx : Nat) :
    List Field → Except CSVError (BaseCSVReader × Nat)
  | [] => .ok (r, column)
  | f :: fs =>
    match AddValue r f.str_val column f.escape_positions f.has_quotes buffer_idx with
    | .ok (r1, column1) => AddValues r1 column1 buffer_idx fs
    | .error e => .error e

/-- Modelled from the spec: the body of `GetLineNumberStr` (line 108) is not
in the header.  Spec, section 4.4: "renders a line-number for error messages;
when `estimated` is true the rendered message must indicate the number is
approximate"; the line of a buffer is translated by `GetLineError`. -/
def GetLineNumberStr (r : BaseCSVReader) (linenr : Nat) (linenr_estimated : Bool)
    (buffer_idx : Nat) : String :=
  toString (GetLineError r linenr buffer_idx).1 ++
    (if linenr_estimated then " (estimated)" else "")

/-- Everything a call of `AddRow` leaves behind: the `bool` it returns, the
reader, the arguments passed by reference (`insert_chunk`, `column`,
`error_message`, line 100) and the error condition of spec section 7 the call
reports, if any. -/
structure AddRowResult where
  filled : Bool
  reader : BaseCSVReader
  insert_chunk : DataChunk
  column : Nat
  error_message : String
  condition : Option CSVError
  deriving DecidableEq

/-- Modelled from the spec: the text `AddRow` puts into `error_message` on
column overflow.  Spec, section 6: error messages are "structured text
including file name, logical line number (flagged estimated or exact), buffer
index, and offending column when available". -/
def SchemaMismatchMessage (r : BaseCSVReader) (column : Nat) (buffer_idx : Nat) : String :=
  "Error in file " ++ (GetFileName r).1 ++ " on line " ++
    GetLineNumberStr r r.linenr r.linenr_estimated buffer_idx ++ ": expected " ++
    toString r.return_types.length ++ " columns but found " ++ toString column

/-- Modelled from the spec: the body of `AddRow` is not in the header, which
declares `bool AddRow(DataChunk &insert_chunk, idx_t &column, string
&error_message, idx_t buffer_idx)` with the comment "Adds a row to the
insert_chunk, returns true if the chunk is filled as a result of this row
being added" (lines 99-100).  Spec, section 4.1: "finalizes the current row
into `batch`.  Returns whether the batch is now full (has reached its row
capacity) ...  A row with zero non-empty fields is treated as `row_empty` and
skipped without incrementing the row count, unless the reader is in a mode
where blank-row skipping is disabled ...  On overflow (`error_column_overflow`
set) the call fails with a `SchemaMismatch` condition carrying a
human-readable `error_message`, unless the configuration permits ignoring
extra columns."

* On overflow that may not be ignored no row is added: the condition is
  reported through `error_message` and the returned `bool` is `false`.
* A skipped blank row adds nothing, so the chunk is not filled by it.
* Otherwise the current row of the accumulation buffer is added to
  `insert_chunk` and the result says whether the chunk is full with it.

The spec does not say in which states blank-row skipping is disabled, so
`skip_blank_rows` is an argument.  `row_empty` and `error_column_overflow`
describe the current row (section 3), so a finished row clears them and
`column` restarts at 0. -/
def AddRow (skip_blank_rows : BaseCSVReader → Bool) (r : BaseCSVReader)
    (insert_chunk : DataChunk) (column : Nat) (error_message : String) (buffer_idx : Nat) :
    AddRowResult :=
  if r.error_column_overflow && !r.options.ignore_extra_columns then
    { filled := false
      reader := r
      insert_chunk := insert_chunk
      column := column
      error_message := SchemaMismatchMessage r column buffer_idx
      condition := some (.SchemaMismatch (SchemaMismatchMessage r column buffer_idx)) }
  else if r.row_empty && skip_blank_rows r then
    { filled := false
      reader := { r with row_empty := false, error_column_overflow := false }
      insert_chunk := insert_chunk
      column := 0
      error_message := error_message
      condition := none }
  else
    { filled := (insert_chunk.AppendRow (r.parse_chunk.GetRow r.parse_chunk.count)).IsFull
      reader := { r with row_empty := false, error_column_overflow := false }
      insert_chunk := insert_chunk.AppendRow (r.parse_chunk.GetRow r.parse_chunk.count)
      column := 0
      error_message := error_message
      condition := none }

/-- One step a holder of the reader can take: a write to the public data
member `return_types` (line 47), or a call of a member function. -/
inductive ReaderOp where
  | writeReturnTypes (types : List LogicalType)
  | initParseChunk (num_cols : Nat)
  | addValue (str_val : String) (column : Nat) (escape_positions : List Nat)
      (has_quotes : Bool) (buffer_idx : Nat)
  | addRow (insert_chunk : DataChunk) (column : Nat) (error_message : String) (buffer_idx : Nat)
  | initializeProjection
  | getFileName
  | getNames
  | getTypes
  | getLineError (line_error : Nat) (buffer_idx : Nat)
  deriving DecidableEq

/-- The reader after one step. -/
def ReaderOp.apply (skip_blank_rows : BaseCSVReader → Bool) (r : BaseCSVReader) :
    ReaderOp → BaseCSVReader
  | .writeReturnTypes types => { r with return_types := types }
  | .initParseChunk num_cols => InitParseChunk r num_cols
  | .addValue str_val column escape_positions has_quotes buffer_idx =>
    match AddValue r str_val column escape_positions has_quotes buffer_idx with
    | .ok (r1, _) => r1
    | .error _ => r
  | .addRow insert_chunk column error_message buffer_idx =>
    (AddRow skip_blank_rows r insert_chunk column error_message buffer_idx).reader
  | .initializeProjection => InitializeProjection r
  | .getFileName => (GetFileName r).2
  | .getNames => (GetNames r).2
  | .getTypes => (GetTypes r).2
  | .getLineError line_error buffer_idx => (GetLineError r line_error buffer_idx).2

/-- A configuration with batch capacity 2 that does not permit extra columns. -/
def sampleOptions : BufferedCSVReaderOptions :=
  { file_path := "data.csv"
    delimiter := some ','
    quote := none
    escape := none
    sql_types := []
    name_list := []
    compression := "none"
    sample_chunk_size := 10
    sample_chunks := 2
    header := true
    ignore_extra_columns := false
    batch_capacity := 2 }

/-- A freshly constructed reader over `sampleOptions`. -/
def sampleReader : BaseCSVReader :=
  BaseCSVReader.construct sampleOptions ParserMode.PARSING

/-- A reader with two declared columns `a`, `b`: the two members are written
and the accumulation buffer is initialised to their number. -/
def sampleReader2 : BaseCSVReader :=
  InitParseChunk
    { sampleReader with
      return_types := [LogicalType.INTEGER, LogicalType.VARCHAR]
      names := ["a", "b"] } 2

/-- Three unquoted fields `1`, `x`, `y`: one more than `sampleReader2` declares. -/
def sampleFields : List Field :=
  [{ str_val := "1", escape_positions := [], has_quotes := false },
   { str_val := "x", escape_positions := [], has_quotes := false },
   { str_val := "y", escape_positions := [], has_quotes := false }]

end duckdb

namespace duckdb

/-! ## Lemmas about the modelled operations -/

theorem ColumnCount_SetValue (c : DataChunk) (col row : Nat) (v : String) :
    (c.SetValue col row v).ColumnCount = c.ColumnCount := by
  unfold DataChunk.SetValue DataChunk.ColumnCount
  split <;> simp

theorem AddValue_eq (r : BaseCSVReader) (str_val : String) (column : Nat)
    (escape_positions : List Nat) (has_quotes : Bool) (buffer_idx : Nat) :
    ∃ r1, AddValue r str_val column escape_positions has_quotes buffer_idx = .ok (r1, column + 1) ∧
      r1.return_types = r.return_types ∧
      r1.options = r.options ∧
      r1.parse_chunk.ColumnCount = r.parse_chunk.ColumnCount ∧
      (r.return_types.length ≤ column →
        r1.error_column_overflow = true ∧ r1.parse_chunk = r.parse_chunk) ∧
      (column < r.return_types.length → r1.error_column_overflow = r.error_column_overflow) := by
  unfold AddValue
  by_cases h : r.return_types.length ≤ column
  · simp only [h, if_true]
    exact ⟨_, rfl, rfl, rfl, rfl, fun _ => ⟨rfl, rfl⟩, fun h2 => absurd h (by omega)⟩
  · simp only [h, if_false]
    exact ⟨_, rfl, rfl, rfl, ColumnCount_SetValue _ _ _ _, fun h2 => absurd h2 (by simp), fun _ => rfl⟩

theorem AddValues_spec (buffer_idx : Nat) (fields : List Field) :
    ∀ (r : BaseCSVReader) (column : Nat),
      ∃ r1, AddValues r column buffer_idx fields = .ok (r1, column + fields.length) ∧
        r1.return_types = r.return_types ∧
        (r1.error_column_overflow = true ↔
          r.error_column_overflow = true ∨
            (0 < fields.length ∧ r.return_types.length < column + fields.length)) ∧
        (r.return_types.length ≤ column → r1.parse_chunk = r.parse_chunk) := by
  induction fields with
  | nil =>
    intro r column
    exact ⟨r, rfl, rfl, by simp, fun _ => rfl⟩
  | cons f fs ih =>
    intro r column
    obtain ⟨r1, h1, ht1, _, _, hov, hin⟩ :=
      AddValue_eq r f.str_val column f.escape_positions f.has_quotes buffer_idx
    obtain ⟨r2, h2, ht2, hflag, hframe⟩ := ih r1 (column + 1)
    refine ⟨r2, ?_, ht2.trans ht1, ?_, ?_⟩
    · simp only [AddValues, h1, h2, List.length_cons]
      congr 2
      omega
    · rw [hflag, ht1]
      simp only [List.length_cons]
      by_cases h : r.return_types.length ≤ column
      · have := (hov h).1
        simp only [this, true_or, true_iff]
        right
        omega
      · have hlt : column < r.return_types.length := by omega
        rw [hin hlt]
        constructor
        · rintro (h3 | ⟨_, h4⟩)
          · exact Or.inl h3
          · exact Or.inr (by omega)
        · rintro (h3 | ⟨_, h4⟩)
          · exact Or.inl h3
          · exact Or.inr (by omega)
    · intro h
      rw [hframe (by rw [ht1]; omega), (hov h).2]

theorem AddValues_append (buffer_idx : Nat) (xs ys : List Field) :
    ∀ (r : BaseCSVReader) (column : Nat),
      AddValues r column buffer_idx (xs ++ ys) =
        match AddValues r column buffer_idx xs with
        | .ok (r1, column1) => AddValues r1 column1 buffer_idx ys
        | .error e => .error e := by
  induction xs with
  | nil => intro r column; rfl
  | cons f fs ih =>
    intro r column
    obtain ⟨r1, h1, _⟩ :=
      AddValue_eq r f.str_val column f.escape_positions f.has_quotes buffer_idx
    simp only [List.cons_append, AddValues, h1]
    exact ih r1 (column + 1)

theorem AppendRow_stored (c : DataChunk) (row : List String) (i : Nat) (vec : Vector)
    (v : String) (hvec : c.data[i]? = some vec) (hv : row[i]? = some v) :
    (c.AppendRow row).data[i]? = some { vec with values := vec.values.set c.count v } := by
  simp [DataChunk.AppendRow, List.getElem?_map, hvec, hv]

theorem SchemaMismatchMessage_ne_empty (r : BaseCSVReader) (column buffer_idx : Nat) :
    SchemaMismatchMessage r column buffer_idx ≠ "" := by
  intro h
  have hlen := congrArg String.length h
  simp only [SchemaMismatchMessage, String.length_append] at hlen
  have h14 : "Error in file ".length = 14 := by decide
  have h0 : "".length = 0 := by decide
  omega

theorem AddRow_overflow (skip_blank_rows : BaseCSVReader → Bool) (r : BaseCSVReader)
    (insert_chunk : DataChunk) (column : Nat) (error_message : String) (buffer_idx : Nat)
    (hov : r.error_column_overflow = true) (hign : r.options.ignore_extra_columns = false) :
    AddRow skip_blank_rows r insert_chunk column error_message buffer_idx =
      { filled := false
        reader := r
        insert_chunk := insert_chunk
        column := column
        error_message := SchemaMismatchMessage r column buffer_idx
        condition := some (.SchemaMismatch (SchemaMismatchMessage r column buffer_idx)) } := by
  simp [AddRow, hov, hign]

theorem AddRow_skip (skip_blank_rows : BaseCSVReader → Bool) (r : BaseCSVReader)
    (insert_chunk : DataChunk) (column : Nat) (error_message : String) (buffer_idx : Nat)
    (hf : ¬(r.error_column_overflow = true ∧ r.options.ignore_extra_columns = false))
    (hempty : r.row_empty = true) (hskip : skip_blank_rows r = true) :
    AddRow skip_blank_rows r insert_chunk column error_message buffer_idx =
      { filled := false
        reader := { r with row_empty := false, error_column_overflow := false }
        insert_chunk := insert_chunk
        column := 0
        error_message := error_message
        condition := none } := by
  have h1 : (r.error_column_overflow && !r.options.ignore_extra_columns) = false := by
    cases h : r.error_column_overflow <;> cases h2 : r.options.ignore_extra_columns <;>
      simp_all
  simp [AddRow, h1, hempty, hskip]

theorem AddRow_add (skip_blank_rows : BaseCSVReader → Bool) (r : BaseCSVReader)
    (insert_chunk : DataChunk) (column : Nat) (error_message : String) (buffer_idx : Nat)
    (hf : ¬(r.error_column_overflow = true ∧ r.options.ignore_extra_columns = false))
    (hs : ¬(r.row_empty = true ∧ skip_blank_rows r = true)) :
    AddRow skip_blank_rows r insert_chunk column error_message buffer_idx =
      { filled := (insert_chunk.AppendRow (r.parse_chunk.GetRow r.parse_chunk.count)).IsFull
        reader := { r with row_empty := false, error_column_overflow := false }
        insert_chunk := insert_chunk.AppendRow (r.parse_chunk.GetRow r.parse_chunk.count)
        column := 0
        error_message := error_message
        condition := none } := by
  have h1 : (r.error_column_overflow && !r.options.ignore_extra_columns) = false := by
    cases h : r.error_column_overflow <;> cases h2 : r.options.ignore_extra_columns <;>
      simp_all
  have h2 : (r.row_empty && skip_blank_rows r) = false := by
    cases h : r.row_empty <;> cases h3 : skip_blank_rows r <;> simp_all
  simp [AddRow, h1, h2]

/-- C1: for every line number `line_error` and every buffer index, the base
`GetLineError` returns exactly `line_error`; the result is the same for every
other buffer index. -/
theorem GetLineError_identity (r : BaseCSVReader) (line_error buffer_idx : Nat) :
    (GetLineError r line_error buffer_idx).1 = line_error ∧
      ∀ other_idx : Nat,
        (GetLineError r line_error other_idx).1 = (GetLineError r line_error buffer_idx).1 :=
  ⟨rfl, fun _ => rfl⟩

/-- C2: for every reader state, `GetFileName` returns `options.file_path`,
`GetNames` returns the stored list `names` and `GetTypes` returns the stored
list `return_types`: same length and the same element at every position. -/
theorem getters_return_stored_schema (r : BaseCSVReader) :
    (GetFileName r).1 = r.options.file_path ∧
      (GetNames r).1 = r.names ∧
      (GetTypes r).1 = r.return_types ∧
      (GetNames r).1.length = r.names.length ∧
      (GetTypes r).1.length = r.return_types.length ∧
      (∀ i : Nat, (GetNames r).1[i]? = r.names[i]?) ∧
      ∀ i : Nat, (GetTypes r).1[i]? = r.return_types[i]? :=
  ⟨rfl, rfl, rfl, rfl, rfl, fun _ => rfl, fun _ => rfl⟩

/-- C3: for every reader state, row and target batch, `AddRow` returns true if
and only if this row was added to the batch (the batch holds one row more)
and the batch thereby holds exactly its row capacity, and returns false
otherwise; a batch for which it returns true was below its capacity before the
call.  The row is added, with its fields stored in the batch's next row slot,
unless it overflowed the declared columns and extra columns may not be
ignored (then the `SchemaMismatch` condition is reported with a non-empty
`error_message` and the batch and the reader are untouched) or it is a blank
row that is skipped (then the batch is untouched). -/
theorem AddRow_returns_whether_filled (skip_blank_rows : BaseCSVReader → Bool)
    (r : BaseCSVReader) (insert_chunk : DataChunk) (column buffer_idx : Nat)
    (error_message : String) :
    ∃ out : AddRowResult,
      AddRow skip_blank_rows r insert_chunk column error_message buffer_idx = out ∧
        (out.filled = true ↔
          out.insert_chunk.count = insert_chunk.count + 1 ∧
            out.insert_chunk.count = out.insert_chunk.capacity) ∧
        (out.filled = false ↔
          ¬(out.insert_chunk.count = insert_chunk.count + 1 ∧
            out.insert_chunk.count = out.insert_chunk.capacity)) ∧
        (out.filled = true → insert_chunk.count < insert_chunk.capacity) ∧
        out.insert_chunk.capacity = insert_chunk.capacity ∧
        (out.insert_chunk.count = insert_chunk.count + 1 ↔
          ¬(r.error_column_overflow = true ∧ r.options.ignore_extra_columns = false) ∧
            ¬(r.row_empty = true ∧ skip_blank_rows r = true)) ∧
        (out.insert_chunk.count = insert_chunk.count + 1 ∨ out.insert_chunk = insert_chunk) ∧
        (out.insert_chunk.count = insert_chunk.count + 1 →
          ∀ (i : Nat) (vec : Vector) (v : String), insert_chunk.data[i]? = some vec →
            (r.parse_chunk.GetRow r.parse_chunk.count)[i]? = some v →
            out.insert_chunk.data[i]? =
              some { vec with values := vec.values.set insert_chunk.count v }) ∧
        (r.error_column_overflow = true ∧ r.options.ignore_extra_columns = false →
          out.condition = some (CSVError.SchemaMismatch out.error_message) ∧
            out.error_message ≠ "" ∧ out.insert_chunk = insert_chunk ∧ out.reader = r) ∧
        (¬(r.error_column_overflow = true ∧ r.options.ignore_extra_columns = false) →
          out.condition = none ∧ out.error_message = error_message ∧
            out.reader.error_column_overflow = false ∧ out.reader.row_empty = false ∧
            out.column = 0) := by
  by_cases hf : r.error_column_overflow = true ∧ r.options.ignore_extra_columns = false
  · refine ⟨_, AddRow_overflow skip_blank_rows r insert_chunk column error_message buffer_idx
      hf.1 hf.2, ?_⟩
    dsimp only
    refine ⟨by simp, by simp, by simp, rfl, ?_, Or.inr rfl, ?_, ?_, ?_⟩
    · simp [hf.1, hf.2]
    · intro h
      omega
    · intro _
      exact ⟨rfl, SchemaMismatchMessage_ne_empty r column buffer_idx, rfl, rfl⟩
    · intro h
      exact absurd hf h
  · by_cases hs : r.row_empty = true ∧ skip_blank_rows r = true
    · refine ⟨_, AddRow_skip skip_blank_rows r insert_chunk column error_message buffer_idx
        hf hs.1 hs.2, ?_⟩
      dsimp only
      refine ⟨by simp, by simp, by simp, rfl, ?_, Or.inr rfl, ?_, ?_, ?_⟩
      · simp [hs.1, hs.2]
      · intro h
        omega
      · intro h
        exact absurd h hf
      · intro _
        exact ⟨rfl, rfl, rfl, rfl, rfl⟩
    · refine ⟨_, AddRow_add skip_blank_rows r insert_chunk column error_message buffer_idx
        hf hs, ?_⟩
      dsimp only
      refine ⟨?_, ?_, ?_, rfl, ?_, Or.inl rfl, ?_, ?_, ?_⟩
      · simp [DataChunk.IsFull, DataChunk.AppendRow]
      · simp [DataChunk.IsFull, DataChunk.AppendRow]
      · simp only [DataChunk.IsFull, DataChunk.AppendRow, decide_eq_true_eq]
        omega
      · simp only [DataChunk.AppendRow, true_iff]
        exact ⟨hf, hs⟩
      · intro _ i vec v hvec hv
        exact AppendRow_stored insert_chunk _ i vec v hvec hv
      · intro h
        exact absurd h hf
      · intro _
        exact ⟨rfl, rfl, rfl, rfl, rfl⟩

/-- C4: while the fields of one row are added with `AddValue` (the row starts
at column 0 with `error_column_overflow` clear), every call succeeds, and after
the fields `error_column_overflow` is true exactly when the row has yielded
more fields than `return_types.size()`; the accumulation buffer is the one
left by the first `return_types.size()` fields alone, and a single field at a
column index at or beyond the declared column count leaves the accumulation
buffer unchanged and `AddValue` succeeds on it. -/
theorem AddValue_overflow_exactly (r : BaseCSVReader) (fields : List Field) (buffer_idx : Nat)
    (hstart : r.error_column_overflow = false) :
    (∃ r1, AddValues r 0 buffer_idx fields = .ok (r1, fields.length) ∧
        (r1.error_column_overflow = true ↔ r.return_types.length < fields.length) ∧
        ∃ r0, AddValues r 0 buffer_idx (fields.take r.return_types.length) =
              .ok (r0, (fields.take r.return_types.length).length) ∧
            r1.parse_chunk = r0.parse_chunk) ∧
      ∀ (s : BaseCSVReader) (f : Field) (column : Nat), s.return_types.length ≤ column →
        ∃ s1, AddValue s f.str_val column f.escape_positions f.has_quotes buffer_idx =
              .ok (s1, column + 1) ∧
            s1.parse_chunk = s.parse_chunk ∧ s1.error_column_overflow = true := by
  constructor
  · obtain ⟨r1, h1, _, hflag, _⟩ := AddValues_spec buffer_idx fields r 0
    obtain ⟨r0, h0, ht0, _, _⟩ :=
      AddValues_spec buffer_idx (fields.take r.return_types.length) r 0
    obtain ⟨r2, h2, _, _, hframe2⟩ :=
      AddValues_spec buffer_idx (fields.drop r.return_types.length) r0
        (0 + (fields.take r.return_types.length).length)
    simp only [Nat.zero_add] at h1 h0 h2 hframe2
    refine ⟨r1, h1, ?_, r0, h0, ?_⟩
    · rw [hflag, hstart]
      simp only [Bool.false_eq_true, false_or, Nat.zero_add]
      omega
    · have happ := AddValues_append buffer_idx (fields.take r.return_types.length)
        (fields.drop r.return_types.length) r 0
      rw [List.take_append_drop, h1, h0] at happ
      simp only at happ
      by_cases hlen : r.return_types.length ≤ fields.length
      · have htake : (fields.take r.return_types.length).length = r.return_types.length := by
          simp [List.length_take, hlen]
        rw [h2] at happ
        have hr : r1 = r2 := (Prod.mk.inj (Except.ok.inj happ)).1
        rw [hr]
        exact hframe2 (by rw [ht0, htake])
      · have hdrop : fields.drop r.return_types.length = [] := by
          apply List.drop_eq_nil_of_le
          omega
        rw [hdrop] at happ
        simp only [AddValues] at happ
        rw [(Prod.mk.inj (Except.ok.inj happ)).1]
  · intro s f column hcol
    obtain ⟨s1, h1, _, _, _, hov, _⟩ :=
      AddValue_eq s f.str_val column f.escape_positions f.has_quotes buffer_idx
    exact ⟨s1, h1, (hov hcol).2, (hov hcol).1⟩

/-- Witness for C4: three fields added to a reader with two declared columns. -/
theorem AddValue_overflow_exactly_witness :
    sampleReader2.error_column_overflow = false ∧
      ∃ r1, AddValues sampleReader2 0 0 sampleFields = .ok (r1, 3) ∧
        (r1.error_column_overflow = true ↔ 2 < 3) :=
  ⟨rfl,
    match AddValue_overflow_exactly sampleReader2 sampleFields 0 rfl with
    | ⟨⟨r1, h1, h2, _⟩, _⟩ => ⟨r1, h1, h2⟩⟩

/-- C8: for every reader with `n` discovered columns, after
`InitializeProjection()` the projection is the list of indices 0..n-1: it has
`n` entries, entry `i` is `i`, no index occurs twice, and every projected
index is below the discovered column count; the discovered columns themselves
are unchanged. -/
theorem InitializeProjection_selects_all (r : BaseCSVReader) :
    (InitializeProjection r).reader_data.projection = List.range r.return_types.length ∧
      (InitializeProjection r).reader_data.projection.length = r.return_types.length ∧
      (∀ i : Nat, i < r.return_types.length →
        (InitializeProjection r).reader_data.projection[i]? = some i) ∧
      (InitializeProjection r).reader_data.projection.Nodup ∧
      (InitializeProjection r).return_types = r.return_types ∧
      ∀ i ∈ (InitializeProjection r).reader_data.projection,
        i < (GetTypes (InitializeProjection r)).1.length := by
  refine ⟨rfl, ?_, ?_, ?_, rfl, ?_⟩
  · simp [InitializeProjection, GetTypes]
  · intro i hi
    simp [InitializeProjection, GetTypes, List.getElem?_range hi]
  · simp only [InitializeProjection, GetTypes]
    exact List.nodup_range _
  · intro i hi
    simpa [InitializeProjection, GetTypes] using hi

/-- C9: `GetFileName`, `GetNames`, `GetTypes` and the base `GetLineError` leave
the reader exactly as it was (hence every one of its fields), and calling the
same one again on the state it leaves gives the same result. -/
theorem getters_are_pure_reads (r : BaseCSVReader) (line_error buffer_idx : Nat) :
    ((GetFileName r).2 = r ∧ (GetNames r).2 = r ∧ (GetTypes r).2 = r ∧
        (GetLineError r line_error buffer_idx).2 = r) ∧
      ((GetFileName (GetFileName r).2).1 = (GetFileName r).1 ∧
        (GetNames (GetNames r).2).1 = (GetNames r).1 ∧
        (GetTypes (GetTypes r).2).1 = (GetTypes r).1 ∧
        (GetLineError (GetLineError r line_error buffer_idx).2 line_error buffer_idx).1 =
          (GetLineError r line_error buffer_idx).1) ∧
      ((GetFileName r).2.options = r.options ∧
        (GetNames r).2.return_types = r.return_types ∧
        (GetTypes r).2.names = r.names ∧
        (GetLineError r line_error buffer_idx).2.linenr = r.linenr ∧
        (GetLineError r line_error buffer_idx).2.linenr_estimated = r.linenr_estimated ∧
        (GetFileName r).2.row_empty = r.row_empty ∧
        (GetNames r).2.mode = r.mode ∧
        (GetTypes r).2.error_column_overflow = r.error_column_overflow ∧
        (GetTypes r).2.sniffed_column_counts = r.sniffed_column_counts) :=
  ⟨⟨rfl, rfl, rfl, rfl⟩, ⟨rfl, rfl, rfl, rfl⟩, ⟨rfl, rfl, rfl, rfl, rfl, rfl, rfl, rfl, rfl⟩⟩

/-- C10: in the reader right after construction, whatever the configuration
and the mode, `linenr = 0`, `linenr_estimated = false`, `row_empty = false`,
`sample_chunk_idx = 0`, `jumping_samples = false`,
`end_of_file_reached = false`, `bom_checked = false`, `bytes_in_chunk = 0`,
`bytes_per_line_avg = 0`, `error_column_overflow = false`, and `cached_chunks`
and `sniffed_column_counts` are empty. -/
theorem construct_default_values (options : BufferedCSVReaderOptions) (mode : ParserMode) :
    (BaseCSVReader.construct options mode).linenr = 0 ∧
      (BaseCSVReader.construct options mode).linenr_estimated = false ∧
      (BaseCSVReader.construct options mode).row_empty = false ∧
      (BaseCSVReader.construct options mode).sample_chunk_idx = 0 ∧
      (BaseCSVReader.construct options mode).jumping_samples = false ∧
      (BaseCSVReader.construct options mode).end_of_file_reached = false ∧
      (BaseCSVReader.construct options mode).bom_checked = false ∧
      (BaseCSVReader.construct options mode).bytes_in_chunk = 0 ∧
      (BaseCSVReader.construct options mode).bytes_per_line_avg = 0 ∧
      (BaseCSVReader.construct options mode).error_column_overflow = false ∧
      (BaseCSVReader.construct options mode).cached_chunks = [] ∧
      (BaseCSVReader.construct options mode).sniffed_column_counts = [] :=
  ⟨rfl, rfl, rfl, rfl, rfl, rfl, rfl, rfl, rfl, rfl, rfl, rfl⟩

end duckdb
